import Mathlib

/-!
Shallow embedding of the request-dispatch pipeline of the llm-sdk repository
(src/lib.rs and src/middleware.rs), plus a spec-modelled retry policy for the
parts of the pipeline that live in the reqwest-retry dependency rather than in
the repository itself.  Machine integers appear as `Nat`; header values are
byte lists; fallible operations return `Except`.
-/

/-! ## HTTP status classification (reqwest `StatusCode` semantics) -/

/-- Embeds reqwest's `StatusCode::is_client_error`: true exactly on 400..=499. -/
def is_client_error (s : Nat) : Bool := decide (400 ≤ s ∧ s ≤ 499)

/-- Embeds reqwest's `StatusCode::is_server_error`: true exactly on 500..=599. -/
def is_server_error (s : Nat) : Bool := decide (500 ≤ s ∧ s ≤ 599)

/-- An HTTP response as the dispatcher sees it: a status code and a body.
The body is kept as the text it would yield when fully consumed. -/
structure Response where
  status : Nat
  body : String
deriving DecidableEq, Repr

/-- The error value produced by `send_and_log`; embeds the anyhow error built
from the format string used at src/lib.rs line 118, whose only argument is the
response body text. -/
structure ApiError where
  message : String
deriving DecidableEq, Repr

/-- Embeds the message of the anyhow error and of the tracing diagnostic in
`send_and_log`: the fixed text followed by the debug rendering of the body
text (Rust formats a string in debug mode by quoting and escaping it, which
`String.quote` reproduces). -/
def api_failed_message (text : String) : String :=
  "API failed: " ++ text.quote

/-- Embeds `SendAndLog::send_and_log` (src/lib.rs lines 111-122) after the
transport exchange has produced a response.  Returns the list of diagnostic
records emitted (the `tracing` error line, if any) together with the result
handed to the caller: on a 4xx or 5xx status the body is consumed as text, a
diagnostic carrying that text is emitted, and an error built from that text is
returned; otherwise the response is returned untouched. -/
def send_and_log (res : Response) : List String × Except ApiError Response :=
  if is_client_error res.status || is_server_error res.status then
    let text := res.body
    ([api_failed_message text], Except.error ⟨api_failed_message text⟩)
  else
    ([], Except.ok res)

/-! ## Content-type inspection (src/middleware.rs) -/

/-- Embeds `http::HeaderValue::to_str`: succeeds exactly when every byte of
the header value is visible ASCII (32..=126) or horizontal tab, returning the
same bytes viewed as a string. -/
def to_str (v : List Nat) : Except Unit (List Nat) :=
  if v.all (fun b => decide ((32 ≤ b ∧ b ≤ 126) ∨ b = 9)) then Except.ok v
  else Except.error ()

/-- Byte-list version of Rust `str::starts_with`: `bytesStartsWith s pat` is
true when `pat` is an initial segment of `s`. -/
def bytesStartsWith : List Nat → List Nat → Bool
  | _, [] => true
  | [], _ :: _ => false
  | a :: s, b :: pat => a == b && bytesStartsWith s pat

/-- Byte-list version of Rust `str::contains` with a literal pattern:
`bytesContains s pat` is true when `pat` occurs contiguously anywhere in `s`. -/
def bytesContains : List Nat → List Nat → Bool
  | [], pat => bytesStartsWith [] pat
  | a :: rest, pat => bytesStartsWith (a :: rest) pat || bytesContains rest pat

/-- The bytes of a string literal, for comparing header values against the
literals in src/middleware.rs. -/
def strBytes (s : String) : List Nat := s.data.map Char.toNat

/-- The literal "multipart/form-data" from src/middleware.rs line 25. -/
def multipart_form_data : List Nat := strBytes "multipart/form-data"

/-- The literal "application/octet-stream" from src/middleware.rs line 26. -/
def application_octet_stream : List Nat := strBytes "application/octet-stream"

/-- Where `RetryMiddleware::handle` sends a request: `direct` is the
`next.run(req, extensions)` call that submits once with no retry machinery;
`inner` is `self.inner.handle(req, extensions, next)`, the wrapped
`RetryTransientMiddleware` that may retry. -/
inductive Route where
  | direct
  | inner
deriving DecidableEq, Repr

namespace RetryMiddleware

/-- Embeds the control flow of `RetryMiddleware::handle` (src/middleware.rs
lines 12-34) as a function of the request's content-type header (absent, or
present with the given raw bytes): an absent or unparsable header falls
through to the inner retry middleware; a parsed value containing
"multipart/form-data" or equal to "application/octet-stream" is sent directly
to `next.run`; everything else goes to the inner retry middleware. -/
def handle (contentType : Option (List Nat)) : Route :=
  match contentType.map to_str with
  | some (Except.ok ct) =>
    if bytesContains ct multipart_form_data || ct == application_octet_stream then
      Route.direct
    else
      Route.inner
  | _ => Route.inner

end RetryMiddleware

/-! ## SDK construction and request preparation (src/lib.rs) -/

/-- Embeds the constant `TIMEOUT` at src/lib.rs line 19: the per-attempt
request timeout in seconds. -/
def TIMEOUT : Nat := 30

/-- A materialized pending request: the fields of a reqwest request that the
dispatch pipeline reads or writes.  `contentType` holds the raw bytes of the
content-type header when present; `timeout` is the per-request timeout in
seconds when one has been attached. -/
structure Request where
  method : String
  url : String
  contentType : Option (List Nat)
  body : String
  authorization : Option String
  timeout : Option Nat
deriving DecidableEq, Repr

/-- Embeds `RequestBuilder::bearer_auth`: sets the authorization header to a
bearer credential built from the token. -/
def Request.bearer_auth (r : Request) (token : String) : Request :=
  { r with authorization := some ("Bearer " ++ token) }

/-- Embeds `RequestBuilder::timeout`: attaches a per-request timeout of `d`
seconds. -/
def Request.set_timeout (r : Request) (d : Nat) : Request :=
  { r with timeout := some d }

/-- Embeds the `LlmSdk` struct (src/lib.rs lines 21-26).  The middleware
client built in `LlmSdk::new` is represented by the one datum that shapes
dispatch behaviour, the maximum retry count handed to
`ExponentialBackoff::builder().build_with_max_retries`. -/
structure LlmSdk where
  base_url : String
  token : String
  max_retries : Nat
deriving DecidableEq, Repr

namespace LlmSdk

/-- Embeds `LlmSdk::new` (src/lib.rs lines 33-45): its entire parameter list
is the base URL, the token and the maximum retry count. -/
def new (base_url token : String) (max_retries : Nat) : LlmSdk :=
  { base_url := base_url, token := token, max_retries := max_retries }

/-- Embeds `LlmSdk::prepare_request` (src/lib.rs lines 95-104) applied to the
materialized request: attach bearer authorization exactly when the configured
token is non-empty, then attach the fixed `TIMEOUT`. -/
def prepare_request (sdk : LlmSdk) (req : Request) : Request :=
  let req := if sdk.token.isEmpty then req else req.bearer_auth sdk.token
  req.set_timeout TIMEOUT

end LlmSdk

/-! ## Retry policy and dispatch loop

The transient-retry machinery that `RetryMiddleware` wraps lives in the
reqwest-retry dependency, not in this repository, so it is modelled from the
specification (sections 3, 4.1 and 4.2): outcome classification, budget
consultation and exponential backoff. -/

/-- Modelled from the spec: the outcome of one submission attempt, either a
completed HTTP exchange or a transport-level error (DNS failure, connection
refusal, timeout), which the spec folds into the transient category. -/
inductive AttemptResult where
  | response (status : Nat) (body : String)
  | transportError
deriving DecidableEq, Repr

/-- Modelled from the spec: "Status codes 408/429/5xx and transport-level
connection errors are transient" (section 3, AttemptOutcome). -/
def isTransient : AttemptResult → Bool
  | AttemptResult.transportError => true
  | AttemptResult.response s _ => decide (s = 408 ∨ s = 429 ∨ (500 ≤ s ∧ s ≤ 599))

/-- Modelled from the spec: the RetryBudget of section 3, an
exponential-backoff schedule with a maximum attempt count and fixed
base/multiplier/jitter parameters. -/
structure Budget where
  maxAttempts : Nat
  base : Nat
  multiplier : Nat
  jitter : Nat
deriving DecidableEq, Repr

/-- Modelled from the spec: the RetryDecision of section 3, either another
attempt after a computed delay or giving up. -/
inductive RetryDecision where
  | retry (after : Nat)
  | giveUp
deriving DecidableEq, Repr

/-- Modelled from the spec: the jitter-free part of the backoff delay,
base times multiplier to the power attempts_so_far (section 4.1). -/
def backoff_delay (budget : Budget) (attemptsSoFar : Nat) : Nat :=
  budget.base * budget.multiplier ^ attemptsSoFar

/-- Modelled from the spec: the Retry Policy Evaluator of section 4.1.  The
content-type gate reuses the routing embedded from src/middleware.rs; a
transient outcome with remaining budget yields a retry after the exponential
delay plus jitter; everything else gives up. -/
def evaluate (contentType : Option (List Nat)) (outcome : AttemptResult)
    (attemptsSoFar : Nat) (budget : Budget) : RetryDecision :=
  match RetryMiddleware.handle contentType with
  | Route.direct => RetryDecision.giveUp
  | Route.inner =>
    if isTransient outcome && decide (attemptsSoFar < budget.maxAttempts) then
      RetryDecision.retry (backoff_delay budget attemptsSoFar + budget.jitter)
    else
      RetryDecision.giveUp

/-- Modelled from the spec: the retry loop of the Dispatch Pipeline (section
4.2), parameterized by the outcome of each attempt.  `attemptsSoFar` attempts
have already been made and `remaining` retries are still allowed; the result
is the total number of attempts made and the final outcome. -/
def runRetryAux (outcomes : Nat → AttemptResult) :
    Nat → Nat → Nat × AttemptResult
  | attemptsSoFar, 0 => (attemptsSoFar + 1, outcomes attemptsSoFar)
  | attemptsSoFar, remaining + 1 =>
    if isTransient (outcomes attemptsSoFar) then
      runRetryAux outcomes (attemptsSoFar + 1) remaining
    else
      (attemptsSoFar + 1, outcomes attemptsSoFar)

/-- Modelled from the spec: the retry loop started with a fresh attempt
counter and a budget of `maxRetries` additional attempts. -/
def runRetry (outcomes : Nat → AttemptResult) (maxRetries : Nat) :
    Nat × AttemptResult :=
  runRetryAux outcomes 0 maxRetries

/-- One logical dispatch through `RetryMiddleware`: the routing is embedded
from src/middleware.rs, and the inner transient-retry loop is modelled from
the spec.  Returns how many times the request was submitted and the final
outcome handed onward. -/
def dispatch (contentType : Option (List Nat)) (maxRetries : Nat)
    (outcomes : Nat → AttemptResult) : Nat × AttemptResult :=
  match RetryMiddleware.handle contentType with
  | Route.direct => (1, outcomes 0)
  | Route.inner => runRetry outcomes maxRetries

/-! ## Claims -/

/-- C6: a request whose content-type header is absent, or whose value cannot
be parsed as a string, is forwarded to the normal retry-evaluating path
(the inner retry middleware) rather than given up. -/
theorem c6_absent_or_unparsable_retry_eligible :
    RetryMiddleware.handle none = Route.inner ∧
    ∀ v : List Nat, to_str v = Except.error () →
      RetryMiddleware.handle (some v) = Route.inner := by
  refine ⟨rfl, ?_⟩
  intro v hv
  simp [RetryMiddleware.handle, hv]

/-- Witness for C6 at the concrete unparsable header value [255]. -/
theorem c6_witness :
    RetryMiddleware.handle (some [255]) = Route.inner :=
  c6_absent_or_unparsable_retry_eligible.2 [255] rfl

/-- C8: the pipeline attaches a bearer-authorization header exactly when the
configured token is non-empty; with an empty token the request only receives
the timeout and is otherwise unchanged. -/
theorem c8_bearer_auth_iff_nonempty_token :
    ∀ (sdk : LlmSdk) (req : Request),
      (sdk.token = "" →
        sdk.prepare_request req = req.set_timeout TIMEOUT) ∧
      (sdk.token ≠ "" →
        sdk.prepare_request req =
          (req.bearer_auth sdk.token).set_timeout TIMEOUT) := by
  intro sdk req
  constructor
  · intro h
    have he : sdk.token.isEmpty = true := (String.isEmpty_iff _).mpr h
    simp [LlmSdk.prepare_request, he]
  · intro h
    have he : sdk.token.isEmpty = false := by
      cases hc : sdk.token.isEmpty
      · rfl
      · exact absurd ((String.isEmpty_iff _).mp hc) h
    simp [LlmSdk.prepare_request, he]

/-- Witness for C8 at an empty-token SDK and a non-empty-token SDK. -/
theorem c8_witness :
    (LlmSdk.new "https://api" "" 3).prepare_request
        ⟨"POST", "/chat", none, "", none, none⟩ =
      Request.set_timeout ⟨"POST", "/chat", none, "", none, none⟩ TIMEOUT ∧
    (LlmSdk.new "https://api" "tok" 3).prepare_request
        ⟨"POST", "/chat", none, "", none, none⟩ =
      Request.set_timeout
        (Request.bearer_auth ⟨"POST", "/chat", none, "", none, none⟩ "tok")
        TIMEOUT :=
  ⟨(c8_bearer_auth_iff_nonempty_token _ _).1 rfl,
   (c8_bearer_auth_iff_nonempty_token _ _).2 (by decide)⟩

/-- C10: the non-retryable check matches "multipart/form-data" by substring
containment but "application/octet-stream" only by exact equality, so
"application/octet-stream; param=x" stays retry-eligible while any parsed
content-type containing "multipart/form-data" is sent around the retry
machinery. -/
theorem c10_contains_vs_equality :
    RetryMiddleware.handle
        (some (strBytes "application/octet-stream; param=x")) = Route.inner ∧
    ∀ v ct : List Nat, to_str v = Except.ok ct →
      bytesContains ct multipart_form_data = true →
      RetryMiddleware.handle (some v) = Route.direct := by
  constructor
  · decide
  · intro v ct hparse hcontains
    simp [RetryMiddleware.handle, hparse, hcontains]

/-- Witness for C10 at a content-type containing "multipart/form-data" in the
middle of the value. -/
theorem c10_witness :
    RetryMiddleware.handle
        (some (strBytes "x multipart/form-data; boundary=q")) = Route.direct :=
  c10_contains_vs_equality.2 _ _ rfl (by decide)

/-- C9: `send_and_log` returns an error exactly when the status is 4xx or
5xx; every other status, including 1xx and 3xx, is returned to the caller as
success with the response untouched. -/
theorem c9_error_iff_4xx_or_5xx :
    ∀ (s : Nat) (b : String),
      ((400 ≤ s ∧ s ≤ 599) →
        send_and_log ⟨s, b⟩ =
          ([api_failed_message b], Except.error ⟨api_failed_message b⟩)) ∧
      (¬(400 ≤ s ∧ s ≤ 599) →
        send_and_log ⟨s, b⟩ = ([], Except.ok ⟨s, b⟩)) := by
  intro s b
  constructor
  · intro h
    have hc : (is_client_error s || is_server_error s) = true := by
      simp only [is_client_error, is_server_error, Bool.or_eq_true,
        decide_eq_true_eq]
      omega
    simp [send_and_log, hc]
  · intro h
    have hc : (is_client_error s || is_server_error s) = false := by
      simp only [is_client_error, is_server_error, Bool.or_eq_false_iff,
        decide_eq_false_iff_not]
      omega
    simp [send_and_log, hc]

/-- Witness for C9 at a 3xx status (success path) and a 4xx status (error
path). -/
theorem c9_witness :
    send_and_log ⟨302, "moved"⟩ = ([], Except.ok ⟨302, "moved"⟩) ∧
    send_and_log ⟨404, "nope"⟩ =
      ([api_failed_message "nope"], Except.error ⟨api_failed_message "nope"⟩) :=
  ⟨(c9_error_iff_4xx_or_5xx 302 "moved").2 (by omega),
   (c9_error_iff_4xx_or_5xx 404 "nope").1 (by omega)⟩

/-- C7: a 2xx response is returned to the caller untouched (body unparsed and
unconsumed), and a 2xx outcome always makes the retry policy give up, never
entering the retry loop. -/
theorem c7_2xx_success_unparsed :
    ∀ (s : Nat) (b : String), 200 ≤ s → s ≤ 299 →
      send_and_log ⟨s, b⟩ = ([], Except.ok ⟨s, b⟩) ∧
      ∀ (contentType : Option (List Nat)) (n : Nat) (budget : Budget),
        evaluate contentType (AttemptResult.response s b) n budget =
          RetryDecision.giveUp := by
  intro s b h1 h2
  constructor
  · have hc : (is_client_error s || is_server_error s) = false := by
      simp only [is_client_error, is_server_error, Bool.or_eq_false_iff,
        decide_eq_false_iff_not]
      omega
    simp [send_and_log, hc]
  · intro contentType n budget
    have ht : isTransient (AttemptResult.response s b) = false := by
      simp only [isTransient, decide_eq_false_iff_not]
      omega
    cases hr : RetryMiddleware.handle contentType <;>
      simp [evaluate, hr, ht]

/-- Witness for C7 at status 200. -/
theorem c7_witness :
    send_and_log ⟨200, "ok"⟩ = ([], Except.ok ⟨200, "ok"⟩) ∧
    evaluate none (AttemptResult.response 200 "ok") 0 ⟨3, 1, 2, 0⟩ =
      RetryDecision.giveUp :=
  ⟨(c7_2xx_success_unparsed 200 "ok" (by omega) (by omega)).1,
   (c7_2xx_success_unparsed 200 "ok" (by omega) (by omega)).2 none 0 ⟨3, 1, 2, 0⟩⟩

/-- C1: a request whose parsed content-type contains "multipart/form-data" or
equals "application/octet-stream" bypasses the retry machinery entirely: it is
submitted exactly once and its first outcome is returned, for every retry
budget and every sequence of outcomes, and the Retry Policy Evaluator gives up
on it regardless of outcome, attempt count and budget. -/
theorem c1_multipart_bypasses_retry :
    ∀ v ct : List Nat, to_str v = Except.ok ct →
      (bytesContains ct multipart_form_data = true ∨
        ct = application_octet_stream) →
      ∀ (maxRetries : Nat) (outcomes : Nat → AttemptResult)
        (o : AttemptResult) (n : Nat) (budget : Budget),
        dispatch (some v) maxRetries outcomes = (1, outcomes 0) ∧
        evaluate (some v) o n budget = RetryDecision.giveUp := by
  intro v ct hparse hct maxRetries outcomes o n budget
  have hroute : RetryMiddleware.handle (some v) = Route.direct := by
    rcases hct with h | h <;> simp [RetryMiddleware.handle, hparse, h]
  exact ⟨by simp [dispatch, hroute], by simp [evaluate, hroute]⟩

/-- Witness for C1: a multipart request with a failing outcome is submitted
once, and the evaluator gives up on an octet-stream request after a transport
error with budget remaining. -/
theorem c1_witness :
    dispatch (some (strBytes "multipart/form-data; boundary=x")) 3
        (fun _ => AttemptResult.response 500 "err") =
      (1, AttemptResult.response 500 "err") ∧
    evaluate (some (strBytes "application/octet-stream"))
        AttemptResult.transportError 0 ⟨3, 1, 2, 0⟩ = RetryDecision.giveUp :=
  ⟨(c1_multipart_bypasses_retry (strBytes "multipart/form-data; boundary=x")
      (strBytes "multipart/form-data; boundary=x") rfl (Or.inl (by decide)) 3
      (fun _ => AttemptResult.response 500 "err")
      AttemptResult.transportError 0 ⟨3, 1, 2, 0⟩).1,
   (c1_multipart_bypasses_retry (strBytes "application/octet-stream")
      (strBytes "application/octet-stream") rfl (Or.inr rfl) 3
      (fun _ => AttemptResult.response 500 "err")
      AttemptResult.transportError 0 ⟨3, 1, 2, 0⟩).2⟩

/-- A run of the retry loop in which every attempt is transient consumes the
whole remaining budget and surfaces the outcome of the last attempt. -/
theorem runRetryAux_all_transient (outcomes : Nat → AttemptResult)
    (h : ∀ i, isTransient (outcomes i) = true) :
    ∀ remaining attemptsSoFar : Nat,
      runRetryAux outcomes attemptsSoFar remaining =
        (attemptsSoFar + remaining + 1, outcomes (attemptsSoFar + remaining)) := by
  intro remaining
  induction remaining with
  | zero => intro a; simp [runRetryAux]
  | succ r ih =>
    intro a
    have e : a + 1 + r = a + (r + 1) := by omega
    simp [runRetryAux, h a, ih (a + 1), e]

/-- C3: on the retry-eligible path, outcomes with status 408, 429 or 5xx and
transport errors are transient: the evaluator retries them exactly while
attempts_so_far is below the budget, an all-transient run makes one attempt
more than the retry budget and surfaces the last outcome, and a 4xx outcome
other than 408/429 is permanent and propagates after a single attempt,
bypassing the remaining budget. -/
theorem c3_transient_retried_permanent_immediate :
    ∀ contentType : Option (List Nat),
      RetryMiddleware.handle contentType = Route.inner →
      ∀ (s : Nat) (b : String) (budget : Budget) (n maxRetries : Nat)
        (outcomes : Nat → AttemptResult),
        ((s = 408 ∨ s = 429 ∨ (500 ≤ s ∧ s ≤ 599)) →
          (n < budget.maxAttempts →
            evaluate contentType (AttemptResult.response s b) n budget =
              RetryDecision.retry (backoff_delay budget n + budget.jitter)) ∧
          (budget.maxAttempts ≤ n →
            evaluate contentType (AttemptResult.response s b) n budget =
              RetryDecision.giveUp)) ∧
        (n < budget.maxAttempts →
          evaluate contentType AttemptResult.transportError n budget =
            RetryDecision.retry (backoff_delay budget n + budget.jitter)) ∧
        ((∀ i, isTransient (outcomes i) = true) →
          dispatch contentType maxRetries outcomes =
            (maxRetries + 1, outcomes maxRetries)) ∧
        (400 ≤ s → s ≤ 499 → s ≠ 408 → s ≠ 429 →
          outcomes 0 = AttemptResult.response s b →
          dispatch contentType maxRetries outcomes = (1, outcomes 0)) := by
  intro contentType hinner s b budget n maxRetries outcomes
  refine ⟨?_, ?_, ?_, ?_⟩
  · intro hs
    have ht : isTransient (AttemptResult.response s b) = true := by
      simp only [isTransient, decide_eq_true_eq]
      omega
    constructor
    · intro hn
      simp [evaluate, hinner, ht, hn]
    · intro hn
      have hn2 : ¬n < budget.maxAttempts := Nat.not_lt.mpr hn
      simp [evaluate, hinner, ht, hn2]
  · intro hn
    simp [evaluate, hinner, isTransient, hn]
  · intro htrans
    have := runRetryAux_all_transient outcomes htrans maxRetries 0
    simpa [dispatch, hinner, runRetry] using this
  · intro h4 h5 h6 h7 h0
    have ht : isTransient (outcomes 0) = false := by
      rw [h0]
      simp only [isTransient, decide_eq_false_iff_not]
      omega
    cases maxRetries with
    | zero => simp [dispatch, hinner, runRetry, runRetryAux]
    | succ r => simp [dispatch, hinner, runRetry, runRetryAux, ht]

/-- Witness for C3: on a JSON request a 503 outcome with budget remaining is
retried after the exponential delay plus jitter, and a 404 first outcome ends
the dispatch after exactly one attempt. -/
theorem c3_witness :
    evaluate (some (strBytes "application/json"))
        (AttemptResult.response 503 "oops") 0 ⟨3, 1, 2, 5⟩ =
      RetryDecision.retry 6 ∧
    dispatch (some (strBytes "application/json")) 3
        (fun _ => AttemptResult.response 404 "x") =
      (1, AttemptResult.response 404 "x") :=
  ⟨((c3_transient_retried_permanent_immediate
        (some (strBytes "application/json")) (by decide) 503 "oops"
        ⟨3, 1, 2, 5⟩ 0 3 (fun _ => AttemptResult.response 404 "x")).1
      (by decide)).1 (by decide),
   (c3_transient_retried_permanent_immediate
        (some (strBytes "application/json")) (by decide) 404 "x"
        ⟨3, 1, 2, 5⟩ 0 3 (fun _ => AttemptResult.response 404 "x")).2.2.2
      (by omega) (by omega) (by omega) (by omega) rfl⟩

/-- C5: for a positive base and a multiplier greater than one, fixed at
construction, the jitter-free backoff delay base times multiplier to the power
attempts_so_far is strictly increasing in attempts_so_far. -/
theorem c5_backoff_strictly_increasing :
    ∀ (budget : Budget) (i j : Nat),
      0 < budget.base → 1 < budget.multiplier → i < j →
      backoff_delay budget i < backoff_delay budget j := by
  intro budget i j hb hm hij
  have hp : budget.multiplier ^ i < budget.multiplier ^ j :=
    Nat.pow_lt_pow_right hm hij
  exact mul_lt_mul_of_pos_left hp hb

/-- Witness for C5 at base 1, multiplier 2, attempt counts 0 and 1. -/
theorem c5_witness :
    backoff_delay ⟨3, 1, 2, 0⟩ 0 < backoff_delay ⟨3, 1, 2, 0⟩ 1 :=
  c5_backoff_strictly_increasing ⟨3, 1, 2, 0⟩ 0 1 (by decide) (by decide)
    (by decide)

/-- Counterexample for C2: two responses with the same body but different
statuses (404 and 500) produce identical diagnostic records and identical
error values, so the single error value handed to the caller cannot carry the
HTTP status code. -/
theorem c2_counterexample :
    send_and_log ⟨404, "oops"⟩ = send_and_log ⟨500, "oops"⟩ ∧
      (404 : Nat) ≠ 500 :=
  ⟨rfl, by omega⟩

/-- C2 as amended: on a 4xx or 5xx status the body is consumed as text, one
diagnostic record containing that text is emitted, and the caller receives a
single error value that carries the raw response body text but not the HTTP
status code. -/
theorem c2_error_carries_body_text_only :
    ∀ (s : Nat) (b : String), 400 ≤ s → s ≤ 599 →
      send_and_log ⟨s, b⟩ =
        ([api_failed_message b], Except.error ⟨api_failed_message b⟩) := by
  intro s b h1 h2
  have hc : (is_client_error s || is_server_error s) = true := by
    simp only [is_client_error, is_server_error, Bool.or_eq_true,
      decide_eq_true_eq]
    omega
  simp [send_and_log, hc]

/-- Witness for the amended C2 at status 500 with body "bad". -/
theorem c2_amended_witness :
    send_and_log ⟨500, "bad"⟩ =
      ([api_failed_message "bad"], Except.error ⟨api_failed_message "bad"⟩) :=
  c2_error_carries_body_text_only 500 "bad" (by omega) (by omega)

/-- Counterexample for C4: constructions differing in every parameter the
constructor accepts, applied even to a request carrying another timeout,
all yield a prepared request whose timeout is 30 seconds. -/
theorem c4_counterexample :
    ((LlmSdk.new "https://a" "t" 0).prepare_request
        ⟨"POST", "/x", none, "", none, none⟩).timeout = some 30 ∧
    ((LlmSdk.new "https://b" "u" 1000000).prepare_request
        ⟨"GET", "/y", none, "", none, some 99⟩).timeout = some 30 :=
  ⟨rfl, rfl⟩

/-- C4 as amended: every attempt is bounded by a per-attempt request timeout
of 30 seconds, but the value is a fixed constant, not configurable at SDK
construction: whatever base URL, token and retry count the SDK is built with,
every prepared request carries the 30-second timeout. -/
theorem c4_timeout_fixed_thirty :
    ∀ (base_url token : String) (max_retries : Nat) (req : Request),
      ((LlmSdk.new base_url token max_retries).prepare_request req).timeout =
        some TIMEOUT := by
  intro base_url token max_retries req
  by_cases h : token.isEmpty <;>
    simp [LlmSdk.new, LlmSdk.prepare_request, Request.set_timeout, h]
